import Mathlib

/-!
Verification of `cinderclient/v1/volumes.py` (python-cinderclient, v1 volume
bindings) against its natural-language specification.

The module under verification is pure request/response glue: every manager
operation builds a URL and a JSON body, hands them to a transport client, and
unwraps the JSON response envelope.  We embed it shallowly:

* `Cinder.Value` models decoded JSON / Python values (None, bool, int, str,
  list, dict-as-association-list).
* `Cinder.Request` models one HTTP request (verb, url, optional body).
* A manager operation is a `Cinder.Call α`: the event trace it performs, the
  single HTTP request it issues, and a pure handler mapping the transport's
  response to the operation's return value.  Fallible response unwrapping
  (Python `body[key]`, which raises `KeyError`) is `Except String Value`.

The helpers of `cinderclient/base.py` (`getid`, `Manager._create`, `_get`,
`_list`, `_delete`, `run_hooks`, `Resource` hydration) are not part of the
sources provided; the definitions embedding them are modelled from the spec
and say so in their doc comments.  Everything else is translated directly
from `cinderclient/v1/volumes.py`.
-/

namespace Cinder

/-- A decoded JSON / Python value: `None`, booleans, integers, strings,
lists and objects (dicts), the latter as association lists of string keys. -/
inductive Value : Type where
  | none : Value
  | bool : Bool → Value
  | int : Int → Value
  | str : String → Value
  | list : List Value → Value
  | obj : List (String × Value) → Value

/-- Python `d[k]` on a decoded JSON object: the value at the first binding of
key `k`, a `KeyError` if the key is absent, a `TypeError` if `d` is not an
object.  Errors are plain strings; the module never catches them. -/
def Value.item : Value → String → Except String Value
  | Value.obj kvs, k =>
      match kvs.find? (fun kv => kv.fst = k) with
      | some kv => Except.ok kv.snd
      | Option.none => Except.error ("KeyError: " ++ k)
  | _, k => Except.error ("TypeError: value is not subscriptable at key " ++ k)

/-- The keys of a JSON object, in order (empty for non-objects). -/
def Value.keys : Value → List String
  | Value.obj kvs => kvs.map Prod.fst
  | _ => []

/-- One HTTP request as issued through the transport client. -/
inductive Request : Type where
  | get : String → Request
  | post : String → Value → Request
  | delete : String → Request

/-- A transport response: HTTP status and decoded JSON body.  The transport
client's `post` hands the pair `(status, body)` back to the caller. -/
structure Response : Type where
  status : Nat
  body : Value

/-- A `Volume` resource: the raw attribute mapping decoded from one server
response item.  Modelled from the spec: `base.Resource` (not under the
provided sources) hydrates a resource from a JSON object and exposes each key
as a readable field; the attribute set is open, not a fixed struct. -/
structure Volume : Type where
  info : Value

/-- The `id` attribute of a volume: the server-assigned identifier stored in
its attribute mapping.  Modelled from the spec: `id` is an opaque identifier
assigned by the server, present in every hydrated resource (§3). -/
def Volume.id (v : Volume) : Value :=
  match v.info.item "id" with
  | Except.ok x => x
  | Except.error _ => Value.none

/-- An argument that is either a `Volume` resource or a raw identifier. -/
inductive VolumeRef : Type where
  | res : Volume → VolumeRef
  | raw : Value → VolumeRef

/-- Modelled from the spec: `base.getid` is not under the provided sources.
Per the identifier resolution policy (§4.2), a parameter accepting a Resource
or its identifier is resolved by this single helper: a Resource contributes
its `id` field, a raw identifier passes through unchanged. -/
def getid : VolumeRef → Value
  | VolumeRef.res v => v.id
  | VolumeRef.raw x => x

/-- `%s`-interpolation of a resolved identifier into a URL.  Modelled from
the spec: identifiers are opaque scalar values assigned by the server (§3);
string identifiers interpolate as themselves, integer identifiers as their
decimal rendering.  Container values are not identifiers in the spec's data
model and render empty here. -/
def idstr : Value → String
  | Value.str s => s
  | Value.int n => toString n
  | Value.bool b => cond b "True" "False"
  | Value.none => "None"
  | Value.list _ => ""
  | Value.obj _ => ""

/-- Events observable during one manager operation, in order: constructing a
request body, running the registered hooks of a named hook point over a body
(recording the body before and after), and handing a request to the
transport. -/
inductive Event : Type where
  | constructedBody : Value → Event
  | ranHooks : String → Value → Value → Event
  | sentRequest : Request → Event

/-- Is this event a hook invocation? -/
def Event.isHookRun : Event → Bool
  | Event.ranHooks _ _ _ => true
  | _ => false

/-- One manager operation: the ordered event trace it performs, the single
HTTP request it issues, and the pure handler turning the transport's
response into the operation's return value. -/
structure Call (α : Type) : Type where
  trace : List Event
  request : Request
  handle : Response → α

/-- Modelled from the spec: `base.Manager.run_hooks` is not under the
provided sources.  Per §4.2 and §9, the hooks registered at a hook point are
an explicit ordered list of body mutators applied in order. -/
def run_hooks (hooks : List (Value → Value)) (body : Value) : Value :=
  hooks.foldl (fun b h => h b) body

/-- Modelled from the spec: `base.Manager._create` is not under the provided
sources.  Per §2 and §4.2 it POSTs the body to the url, then parses a single
Resource from the response body's unwrap key; a missing key propagates as a
lookup error (§7). -/
def mgrCreate (url : String) (body : Value) (key : String) :
    Call (Except String Volume) where
  trace := [Event.constructedBody body, Event.sentRequest (Request.post url body)]
  request := Request.post url body
  handle := fun resp => (resp.body.item key).map Volume.mk

/-- Modelled from the spec: `base.Manager._list` is not under the provided
sources.  Per §2 and §4.2 it GETs the url, then parses a sequence of
Resources from the response body's unwrap key; a missing key propagates as a
lookup error (§7). -/
def mgrList (url : String) (key : String) :
    Call (Except String (List Volume)) where
  trace := [Event.sentRequest (Request.get url)]
  request := Request.get url
  handle := fun resp =>
    match resp.body.item key with
    | Except.ok (Value.list xs) => Except.ok (xs.map Volume.mk)
    | Except.ok _ => Except.error "TypeError: response payload is not a list"
    | Except.error e => Except.error e

/-- Modelled from the spec: `base.Manager._delete` is not under the provided
sources.  Per §4.2 it issues DELETE on the url and returns no value. -/
def mgrDelete (url : String) : Call Unit where
  trace := [Event.sentRequest (Request.delete url)]
  request := Request.delete url
  handle := fun _ => ()

/-- `VolumeManager.create` (volumes.py:86-104): builds the nested `volume`
body with the five documented keys (unset optional arguments are Python
`None`, serialized as null) and delegates to `_create('/volumes', body,
'volume')`. -/
def VolumeManager.create (size snapshot_id display_name display_description
    volume_type : Value) : Call (Except String Volume) :=
  mgrCreate "/volumes"
    (Value.obj [("volume", Value.obj
      [("size", size),
       ("snapshot_id", snapshot_id),
       ("display_name", display_name),
       ("display_description", display_description),
       ("volume_type", volume_type)])])
    "volume"

/-- `VolumeManager.list` (volumes.py:115-124): `if detailed is True` selects
`/volumes/detail`, anything else selects `/volumes`; both unwrap the
`volumes` key.  Python `is True` is identity with the `True` singleton,
which in this model is exactly the value `Value.bool true`. -/
def VolumeManager.list (detailed : Value) : Call (Except String (List Volume)) :=
  match detailed with
  | Value.bool true => mgrList "/volumes/detail" "volumes"
  | _ => mgrList "/volumes" "volumes"

/-- `VolumeManager.delete` (volumes.py:126-132): DELETE on
`/volumes/%s % base.getid(volume)`. -/
def VolumeManager.delete (volume : VolumeRef) : Call Unit :=
  mgrDelete ("/volumes/" ++ idstr (getid volume))

/-- `VolumeManager._action` (volumes.py:180-187): build the single-key body
`(action : info)`, run the registered `modify_body_for_action` hooks over it,
POST it to `/volumes/%s/action % base.getid(volume)`, and return the raw
`(status, body)` pair handed back by the transport client's `post`. -/
def VolumeManager._action (hooks : List (Value → Value)) (action : String)
    (volume : VolumeRef) (info : Value) : Call (Nat × Value) :=
  let body := Value.obj [(action, info)]
  let body2 := run_hooks hooks body
  let url := "/volumes/" ++ idstr (getid volume) ++ "/action"
  { trace := [Event.constructedBody body,
              Event.ranHooks "modify_body_for_action" body body2,
              Event.sentRequest (Request.post url body2)]
    request := Request.post url body2
    handle := fun resp => (resp.status, resp.body) }

/-- `VolumeManager.attach` (volumes.py:189-201). -/
def VolumeManager.attach (hooks : List (Value → Value)) (volume : VolumeRef)
    (instance_uuid mountpoint : Value) : Call (Nat × Value) :=
  VolumeManager._action hooks "os-attach" volume
    (Value.obj [("instance_uuid", instance_uuid), ("mountpoint", mountpoint)])

/-- `VolumeManager.detach` (volumes.py:203-210); `info` defaults to `None`. -/
def VolumeManager.detach (hooks : List (Value → Value)) (volume : VolumeRef) :
    Call (Nat × Value) :=
  VolumeManager._action hooks "os-detach" volume Value.none

/-- `VolumeManager.reserve` (volumes.py:212-219); `info` defaults to `None`. -/
def VolumeManager.reserve (hooks : List (Value → Value)) (volume : VolumeRef) :
    Call (Nat × Value) :=
  VolumeManager._action hooks "os-reserve" volume Value.none

/-- `VolumeManager.unreserve` (volumes.py:221-228); `info` defaults to `None`. -/
def VolumeManager.unreserve (hooks : List (Value → Value)) (volume : VolumeRef) :
    Call (Nat × Value) :=
  VolumeManager._action hooks "os-unreserve" volume Value.none

/-- `VolumeManager.initialize_connection` (volumes.py:230-238): runs the
`os-initialize_connection` action and returns `result[1]['connection_info']`:
the `connection_info` sub-object of the response body, every other part of
the `(status, body)` pair discarded.  A missing key propagates. -/
def VolumeManager.initialize_connection (hooks : List (Value → Value))
    (volume : VolumeRef) (connector : Value) : Call (Except String Value) :=
  let c := VolumeManager._action hooks "os-initialize_connection" volume
    (Value.obj [("connector", connector)])
  { trace := c.trace
    request := c.request
    handle := fun resp => ((c.handle resp).snd).item "connection_info" }

/-- `VolumeManager.terminate_connection` (volumes.py:240-248): runs the
`os-terminate_connection` action, discards its result, and falls off the end
of the function, returning Python `None` whatever the response body was. -/
def VolumeManager.terminate_connection (hooks : List (Value → Value))
    (volume : VolumeRef) (connector : Value) : Call Value :=
  let c := VolumeManager._action hooks "os-terminate_connection" volume
    (Value.obj [("connector", connector)])
  { trace := c.trace
    request := c.request
    handle := fun _ => Value.none }

/-- `Volume.delete` (volumes.py:30-34): `self.manager.delete(self)`. -/
def Volume.delete (v : Volume) : Call Unit :=
  VolumeManager.delete (VolumeRef.res v)

/-- `Volume.attach` (volumes.py:36-43):
`self.manager.attach(self, instance_uuid, mountpoint)`. -/
def Volume.attach (hooks : List (Value → Value)) (v : Volume)
    (instance_uuid mountpoint : Value) : Call (Nat × Value) :=
  VolumeManager.attach hooks (VolumeRef.res v) instance_uuid mountpoint

/-- `Volume.detach` (volumes.py:45-49): `self.manager.detach(self)`. -/
def Volume.detach (hooks : List (Value → Value)) (v : Volume) :
    Call (Nat × Value) :=
  VolumeManager.detach hooks (VolumeRef.res v)

/-- `Volume.reserve` (volumes.py:51-55): declared as
`def reserve(self, volume)` — it takes an extra positional parameter
`volume` that the body never uses; it calls `self.manager.reserve(self)`. -/
def Volume.reserve (hooks : List (Value → Value)) (v : Volume)
    (volume : Value) : Call (Nat × Value) :=
  VolumeManager.reserve hooks (VolumeRef.res v)

/-- `Volume.unreserve` (volumes.py:57-61): declared as
`def unreserve(self, volume)` — extra unused positional parameter `volume`;
calls `self.manager.unreserve(self)`. -/
def Volume.unreserve (hooks : List (Value → Value)) (v : Volume)
    (volume : Value) : Call (Nat × Value) :=
  VolumeManager.unreserve hooks (VolumeRef.res v)

/-- `Volume.initialize_connection` (volumes.py:63-69): declared as
`def initialize_connection(self, volume, connector)` — extra unused
positional parameter `volume`; calls
`self.manager.initialize_connection(self, connector)`. -/
def Volume.initialize_connection (hooks : List (Value → Value)) (v : Volume)
    (volume : Value) (connector : Value) : Call (Except String Value) :=
  VolumeManager.initialize_connection hooks (VolumeRef.res v) connector

/-- `Volume.terminate_connection` (volumes.py:71-77): declared as
`def terminate_connection(self, volume, connector)` — extra unused
positional parameter `volume`; calls
`self.manager.terminate_connection(self, connector)`. -/
def Volume.terminate_connection (hooks : List (Value → Value)) (v : Volume)
    (volume : Value) (connector : Value) : Call Value :=
  VolumeManager.terminate_connection hooks (VolumeRef.res v) connector

/-- Claim C1: for every size and every combination of the optional arguments,
`VolumeManager.create` issues POST `/volumes` whose body is a nested `volume`
object containing exactly the five keys `size`, `snapshot_id`,
`display_name`, `display_description`, `volume_type` (an unset optional
argument is Python `None`, i.e. `Value.none`, serialized as null), and
returns a single Volume parsed from the `volume` key of the response whose
`id` equals the server-assigned identifier. -/
theorem C1_create_request_and_result
    (size snapshot_id display_name display_description volume_type : Value)
    (resp : Response) (vinfo i : Value)
    (hvol : resp.body.item "volume" = Except.ok vinfo)
    (hid : vinfo.item "id" = Except.ok i) :
    (VolumeManager.create size snapshot_id display_name display_description
        volume_type).request
      = Request.post "/volumes" (Value.obj [("volume", Value.obj
          [("size", size),
           ("snapshot_id", snapshot_id),
           ("display_name", display_name),
           ("display_description", display_description),
           ("volume_type", volume_type)])])
    ∧ (Value.obj
          [("size", size),
           ("snapshot_id", snapshot_id),
           ("display_name", display_name),
           ("display_description", display_description),
           ("volume_type", volume_type)]).keys
      = ["size", "snapshot_id", "display_name", "display_description",
         "volume_type"]
    ∧ (VolumeManager.create size snapshot_id display_name display_description
        volume_type).handle resp = Except.ok (Volume.mk vinfo)
    ∧ (Volume.mk vinfo).id = i := by
  refine ⟨rfl, rfl, ?_, ?_⟩
  · simp [VolumeManager.create, mgrCreate, hvol, Except.map]
  · simp [Volume.id, hid]

/-- Witness for C1 at a concrete input: `create` with size 1 and every
optional argument unset, against a mocked response whose `volume` object
carries the server-assigned id `vid-1`. -/
theorem C1_witness :
    (VolumeManager.create (Value.int 1) Value.none Value.none Value.none
        Value.none).handle
        (Response.mk 200 (Value.obj [("volume", Value.obj
          [("id", Value.str "vid-1"), ("size", Value.int 1)])]))
      = Except.ok (Volume.mk (Value.obj
          [("id", Value.str "vid-1"), ("size", Value.int 1)]))
    ∧ (Volume.mk (Value.obj
          [("id", Value.str "vid-1"), ("size", Value.int 1)])).id
      = Value.str "vid-1" := by
  have h := C1_create_request_and_result (Value.int 1) Value.none Value.none
    Value.none Value.none
    (Response.mk 200 (Value.obj [("volume", Value.obj
      [("id", Value.str "vid-1"), ("size", Value.int 1)])]))
    (Value.obj [("id", Value.str "vid-1"), ("size", Value.int 1)])
    (Value.str "vid-1") rfl rfl
  exact ⟨h.2.2.1, h.2.2.2⟩

/-- Claim C2: `list` with the exact value `True` issues GET `/volumes/detail`
and `list` with `False` issues GET `/volumes`; in both cases (indeed for
every flag value) the handler is the one that parses the sequence of Volumes
from the `volumes` key, independent of the flag. -/
theorem C2_list_endpoints_and_parse :
    (VolumeManager.list (Value.bool true)).request = Request.get "/volumes/detail"
    ∧ (VolumeManager.list (Value.bool false)).request = Request.get "/volumes"
    ∧ (∀ (detailed : Value) (resp : Response),
        (VolumeManager.list detailed).handle resp
          = (mgrList "/volumes" "volumes").handle resp)
    ∧ (∀ (detailed : Value) (st : Nat) (xs : List Value),
        (VolumeManager.list detailed).handle
            (Response.mk st (Value.obj [("volumes", Value.list xs)]))
          = Except.ok (xs.map Volume.mk)) := by
  refine ⟨rfl, rfl, ?_, ?_⟩
  · intro detailed resp
    cases detailed with
    | bool b => cases b <;> rfl
    | _ => rfl
  · intro detailed st xs
    cases detailed with
    | bool b => cases b <;> simp [VolumeManager.list, mgrList, Value.item]
    | _ => simp [VolumeManager.list, mgrList, Value.item]

/-- Claim C3: deleting via a Volume resource and via its raw identifier
issue the same DELETE request to `/volumes/(id)`; identifier resolution for
every parameter accepting a Resource or its identifier goes through the
single helper `getid`, uniformly across `delete` and the action helper. -/
theorem C3_delete_resource_vs_raw_id :
    (∀ (v : Volume),
        VolumeManager.delete (VolumeRef.res v)
          = VolumeManager.delete (VolumeRef.raw v.id))
    ∧ (∀ (s : String),
        (VolumeManager.delete (VolumeRef.raw (Value.str s))).request
          = Request.delete ("/volumes/" ++ s))
    ∧ (∀ (ref : VolumeRef),
        (VolumeManager.delete ref).request
          = Request.delete ("/volumes/" ++ idstr (getid ref)))
    ∧ (∀ (hooks : List (Value → Value)) (a : String) (ref : VolumeRef)
        (i : Value),
        (VolumeManager._action hooks a ref i).request
          = Request.post ("/volumes/" ++ idstr (getid ref) ++ "/action")
              (run_hooks hooks (Value.obj [(a, i)]))) :=
  ⟨fun _ => rfl, fun _ => rfl, fun _ => rfl, fun _ _ _ _ => rfl⟩

/-- Claim C4: every entity action funnels through `_action`, which wraps the
action as the single-key body `(action : info)` and issues POST to
`/volumes/(id)/action`, returning the raw `(status, body)` pair; with no
hooks registered, `attach` sends body
`os-attach : (instance_uuid, mountpoint)`, while `detach`, `reserve` and
`unreserve` send `os-detach : null`, `os-reserve : null`,
`os-unreserve : null` respectively. -/
theorem C4_action_dispatch_and_bodies :
    (∀ (h : List (Value → Value)) (ref : VolumeRef) (iu mp c : Value),
        VolumeManager.attach h ref iu mp
          = VolumeManager._action h "os-attach" ref
              (Value.obj [("instance_uuid", iu), ("mountpoint", mp)])
        ∧ VolumeManager.detach h ref
          = VolumeManager._action h "os-detach" ref Value.none
        ∧ VolumeManager.reserve h ref
          = VolumeManager._action h "os-reserve" ref Value.none
        ∧ VolumeManager.unreserve h ref
          = VolumeManager._action h "os-unreserve" ref Value.none
        ∧ (VolumeManager.initialize_connection h ref c).request
          = (VolumeManager._action h "os-initialize_connection" ref
              (Value.obj [("connector", c)])).request
        ∧ (VolumeManager.terminate_connection h ref c).request
          = (VolumeManager._action h "os-terminate_connection" ref
              (Value.obj [("connector", c)])).request)
    ∧ (∀ (h : List (Value → Value)) (a : String) (ref : VolumeRef) (i : Value)
        (resp : Response),
        (VolumeManager._action h a ref i).handle resp
          = (resp.status, resp.body))
    ∧ (∀ (ref : VolumeRef) (iu mp : Value),
        (VolumeManager.attach [] ref iu mp).request
          = Request.post ("/volumes/" ++ idstr (getid ref) ++ "/action")
              (Value.obj [("os-attach",
                 Value.obj [("instance_uuid", iu), ("mountpoint", mp)])])
        ∧ (VolumeManager.detach [] ref).request
          = Request.post ("/volumes/" ++ idstr (getid ref) ++ "/action")
              (Value.obj [("os-detach", Value.none)])
        ∧ (VolumeManager.reserve [] ref).request
          = Request.post ("/volumes/" ++ idstr (getid ref) ++ "/action")
              (Value.obj [("os-reserve", Value.none)])
        ∧ (VolumeManager.unreserve [] ref).request
          = Request.post ("/volumes/" ++ idstr (getid ref) ++ "/action")
              (Value.obj [("os-unreserve", Value.none)])) :=
  ⟨fun _ _ _ _ _ => ⟨rfl, rfl, rfl, rfl, rfl, rfl⟩,
   fun _ _ _ _ _ => rfl,
   fun _ _ _ => ⟨rfl, rfl, rfl, rfl⟩⟩

/-- Claim C5: for every volume and connector, `initialize_connection`
returns only the nested `connection_info` sub-object of the action response
body, discarding the status and every sibling key of the response. -/
theorem C5_initialize_returns_connection_info_only :
    (∀ (h : List (Value → Value)) (ref : VolumeRef) (c : Value)
        (resp : Response),
        (VolumeManager.initialize_connection h ref c).handle resp
          = resp.body.item "connection_info")
    ∧ (∀ (h : List (Value → Value)) (ref : VolumeRef) (c : Value) (st : Nat)
        (ci : Value) (siblings : List (String × Value)),
        (VolumeManager.initialize_connection h ref c).handle
            (Response.mk st
              (Value.obj (("connection_info", ci) :: siblings)))
          = Except.ok ci) := by
  refine ⟨fun _ _ _ _ => rfl, ?_⟩
  intro h ref c st ci siblings
  simp [VolumeManager.initialize_connection, VolumeManager._action, Value.item]

/-- Claim C6: for every volume and connector, `terminate_connection` returns
no value (Python `None`), even when the server response body is non-empty. -/
theorem C6_terminate_returns_nothing
    (h : List (Value → Value)) (ref : VolumeRef) (c : Value)
    (resp : Response) :
    (VolumeManager.terminate_connection h ref c).handle resp = Value.none :=
  rfl

/-- Claim C7: on every action call the registered body-mutation hooks run
exactly once, at the hook point `modify_body_for_action`, after the base
body `(action : info)` is constructed and before the POST request is handed
to the transport, so the body actually sent is the body after hook
mutation. -/
theorem C7_hooks_run_once_between_construct_and_send
    (h : List (Value → Value)) (a : String) (ref : VolumeRef) (i : Value) :
    (VolumeManager._action h a ref i).trace
      = [Event.constructedBody (Value.obj [(a, i)]),
         Event.ranHooks "modify_body_for_action" (Value.obj [(a, i)])
           (run_hooks h (Value.obj [(a, i)])),
         Event.sentRequest (Request.post
           ("/volumes/" ++ idstr (getid ref) ++ "/action")
           (run_hooks h (Value.obj [(a, i)])))]
    ∧ ((VolumeManager._action h a ref i).trace.filter Event.isHookRun).length
      = 1
    ∧ (VolumeManager._action h a ref i).request
      = Request.post ("/volumes/" ++ idstr (getid ref) ++ "/action")
          (run_hooks h (Value.obj [(a, i)])) :=
  ⟨rfl, rfl, rfl⟩

/-- Claim C8, as the code has it: every convenience method of `Volume`
forwards to the owning manager substituting the volume itself as the volume
argument; `delete` and `detach` take no further arguments, but `reserve`,
`unreserve`, `initialize_connection` and `terminate_connection` each take an
extra positional parameter `volume` (here `x`, `y`) that the body ignores —
the call is the same whatever is passed for it.  The spec's signatures
(`reserve()`, `initialize_connection(connector)`, ...) are the documented
intent; the extra dead parameter is the code's slip. -/
theorem C8_convenience_methods_forwarding
    (h : List (Value → Value)) (v : Volume) (x y c iu mp : Value) :
    Volume.delete v = VolumeManager.delete (VolumeRef.res v)
    ∧ Volume.attach h v iu mp
      = VolumeManager.attach h (VolumeRef.res v) iu mp
    ∧ Volume.detach h v = VolumeManager.detach h (VolumeRef.res v)
    ∧ Volume.reserve h v x = VolumeManager.reserve h (VolumeRef.res v)
    ∧ Volume.reserve h v x = Volume.reserve h v y
    ∧ Volume.unreserve h v x = VolumeManager.unreserve h (VolumeRef.res v)
    ∧ Volume.unreserve h v x = Volume.unreserve h v y
    ∧ Volume.initialize_connection h v x c
      = VolumeManager.initialize_connection h (VolumeRef.res v) c
    ∧ Volume.initialize_connection h v x c
      = Volume.initialize_connection h v y c
    ∧ Volume.terminate_connection h v x c
      = VolumeManager.terminate_connection h (VolumeRef.res v) c
    ∧ Volume.terminate_connection h v x c
      = Volume.terminate_connection h v y c :=
  ⟨rfl, rfl, rfl, rfl, rfl, rfl, rfl, rfl, rfl, rfl, rfl⟩

/-- Claim C9: when a response body lacks the expected unwrap key — here the
action response of `initialize_connection` has no `connection_info` key —
the lookup error propagates unchanged to the caller; nothing catches,
translates or recovers from it. -/
theorem C9_missing_unwrap_key_propagates
    (h : List (Value → Value)) (ref : VolumeRef) (c : Value)
    (resp : Response) (e : String)
    (hmiss : resp.body.item "connection_info" = Except.error e) :
    (VolumeManager.initialize_connection h ref c).handle resp
      = Except.error e :=
  hmiss

/-- Witness for C9 at a concrete input: an action response whose body is an
object without the `connection_info` key; the `KeyError` surfaces verbatim. -/
theorem C9_witness :
    (VolumeManager.initialize_connection [] (VolumeRef.raw (Value.str "v1"))
        Value.none).handle
        (Response.mk 200 (Value.obj [("other", Value.int 3)]))
      = Except.error "KeyError: connection_info" :=
  C9_missing_unwrap_key_propagates [] (VolumeRef.raw (Value.str "v1"))
    Value.none (Response.mk 200 (Value.obj [("other", Value.int 3)]))
    "KeyError: connection_info" rfl

/-- Claim C10 (implicit): `list` compares the flag by identity with the
`True` singleton, so a truthy value that is not the boolean `True` — the
integer 1, a non-empty string — selects the base `/volumes` path; only the
exact value `True` selects `/volumes/detail`. -/
theorem C10_list_is_True_identity_check :
    (VolumeManager.list (Value.int 1)).request = Request.get "/volumes"
    ∧ (VolumeManager.list (Value.str "yes")).request = Request.get "/volumes"
    ∧ (VolumeManager.list (Value.bool true)).request
      = Request.get "/volumes/detail"
    ∧ (∀ (d : Value), d ≠ Value.bool true →
        (VolumeManager.list d).request = Request.get "/volumes") := by
  refine ⟨rfl, rfl, rfl, ?_⟩
  intro d hd
  cases d with
  | bool b =>
      cases b with
      | true => exact absurd rfl hd
      | false => rfl
  | _ => rfl

/-- Witness for C10 at a concrete input: the truthy integer 1 is not the
boolean `True`, and selects the base path. -/
theorem C10_witness :
    (VolumeManager.list (Value.int 1)).request = Request.get "/volumes" :=
  C10_list_is_True_identity_check.2.2.2 (Value.int 1)
    (fun hq => Value.noConfusion hq)

end Cinder
